import Mathlib

/-!
Verification development for the WhatsApp educational-query classifier.

This file gives a shallow embedding, in Lean 4, of the classification
pipeline of the repository (FastAPI service under app/): the pipeline
orchestrator (app/services/classification_pipeline.py), the conversation
history store (app/services/history_service.py), the follow-up detector
(app/services/followup_detector.py), the main classifier fallback chain
(app/services/main_classifier.py), the exam sub-classifier normalization
(app/services/exam_classifier.py), the response formatter
(app/utils/response_formatter.py), the request/response schemas
(app/models/schemas.py, app/models/history_schemas.py) and the classify
route (app/api/routes.py).

Conventions of the embedding:
* Python dictionary values are modelled by the inductive type `PyVal`;
  dictionaries are association lists that preserve insertion order, as
  Python dicts do.
* External collaborators (the OpenAI calls, the translator, DynamoDB,
  the category handlers) are modelled as explicit parameters: a fallible
  call is a value of `Except String A` whose error component models a
  raised Python exception carrying its message.
* Pydantic model construction validates enum-typed fields; construction
  is modelled as `Except String A`, erroring exactly when pydantic would
  raise a ValidationError (first invalid field in declaration order).
* Wall-clock fields (processing_time_ms, timestamp of the envelope) are
  not modelled; they carry no control flow.
-/

/-- Model of a Python value as stored in dicts handled by the service.
Dict entries keep insertion order, mirroring Python dict semantics. -/
inductive PyVal where
  | str (s : String)
  | bool (b : Bool)
  | num (q : ℚ)
  | dict (entries : List (String × PyVal))
  | list (items : List PyVal)
  | none

namespace PyVal

/-- Equality test of a Python value against a string literal, the model of
the Python comparison `v == s` with `s` a str: false on non-str values. -/
def eqStr (v : PyVal) (s : String) : Bool :=
  match v with
  | .str t => t == s
  | _ => false

/-- Ordered association-list lookup, mirroring Python dict key access. -/
def lookupKey : List (String × PyVal) → String → Option PyVal
  | [], _ => Option.none
  | (k, v) :: rest, key => if k = key then some v else lookupKey rest key

/-- Set a key in an ordered association list: replace in place when the key
exists, append otherwise, as Python dict assignment does. -/
def setKey : List (String × PyVal) → String → PyVal → List (String × PyVal)
  | [], key, v => [(key, v)]
  | (k, w) :: rest, key, v =>
    if k = key then (k, v) :: rest else (k, w) :: setKey rest key v

/-- Python truthiness of a value. -/
def truthy : PyVal → Bool
  | .str s => !s.isEmpty
  | .bool b => b
  | .num q => q ≠ 0
  | .dict es => !es.isEmpty
  | .list xs => !xs.isEmpty
  | .none => false

/-- Whether a value is a Python dict. -/
def isDict : PyVal → Bool
  | .dict _ => true
  | _ => false

/-- Whether a value is a Python str. -/
def isStr : PyVal → Bool
  | .str _ => true
  | _ => false

/-- Model of the Python method call `v.get(k, dflt)`: succeeds on dicts,
raises AttributeError (modelled as an error) on every other value. -/
def pyGet (v : PyVal) (k : String) (dflt : PyVal) : Except String PyVal :=
  match v with
  | .dict es => .ok ((lookupKey es k).getD dflt)
  | _ => .error "AttributeError"

/-- Model of the Python expression `k in v` for a string key: key test on
dicts, substring test on strings, element test on lists, TypeError on the
rest. The substring test is defined below as `strContains`. -/
def pyContains (v : PyVal) (k : String) : Except String Bool :=
  match v with
  | .dict es => .ok (lookupKey es k).isSome
  | .str s => .ok (decide (k.data <:+: s.data))
  | .list xs => .ok (xs.any (fun x => x.eqStr k))
  | _ => .error "TypeError"

/-- Model of the Python expression `v[k]` for a string key: dict lookup
(KeyError when missing), TypeError on every other value. -/
def pyIndex (v : PyVal) (k : String) : Except String PyVal :=
  match v with
  | .dict es =>
    match lookupKey es k with
    | some w => .ok w
    | Option.none => .error "KeyError"
  | _ => .error "TypeError"

/-- Model of Python str() applied to a value. The rendering of numbers and
containers is a simplification of the Python repr; only the str, bool and
None cases are exercised by the service. -/
def toPyStr : PyVal → String
  | .str s => s
  | .bool b => if b then "True" else "False"
  | .num q => toString q
  | .dict _ => "<dict>"
  | .list _ => "<list>"
  | .none => "None"

/-- Model of Python len(v): defined for str, dict and list, TypeError on
the rest. -/
def pyLen : PyVal → Except String Nat
  | .str s => .ok s.length
  | .dict es => .ok es.length
  | .list xs => .ok xs.length
  | _ => .error "TypeError"

/-- Model of Python slicing `v[:n]`: defined for str and list, TypeError
on the rest (in particular on dicts). -/
def pySliceOk : PyVal → Bool
  | .str _ => true
  | .list _ => true
  | _ => false

end PyVal

/-- Substring test on strings, the model of the Python `in` operator on
str operands. -/
def strContains (s pat : String) : Bool :=
  decide (pat.data <:+: s.data)

/-- Convert an optional string to the Python value None or a str. -/
def optStr : Option String → PyVal
  | some s => .str s
  | Option.none => .none

/-- Model of the Python method str.strip(): drop leading and trailing
whitespace. -/
def pyStrip (s : String) : String :=
  ⟨((s.data.dropWhile Char.isWhitespace).reverse.dropWhile
      Char.isWhitespace).reverse⟩

/-- Model of the Python method str.lower(), characterwise lowering. -/
def pyLower (s : String) : String :=
  ⟨s.data.map Char.toLower⟩

/-! ## Schemas (app/models/schemas.py, app/models/history_schemas.py)

The pydantic enums become closed lists of their string values; pydantic
model construction validates enum-typed fields in declaration order and
raises ValidationError on the first invalid one. -/

/-- Values of ClassificationType (schemas.py, lines 10-17). -/
def classificationTypeValues : List String :=
  ["subject_related", "app_related", "complaint",
   "guidance_based", "conversation_based", "exam_related_info"]

/-- Values of ExamSubClassificationType (schemas.py, lines 20-26). -/
def examSubClassificationTypeValues : List String :=
  ["faq", "pyq_pdf", "asking_PYQ_question", "asking_test",
   "asking_important_question"]

/-- Values of SubjectType (schemas.py, lines 29-34). -/
def subjectTypeValues : List String :=
  ["Physics", "Chemistry", "Mathematics", "Biology"]

/-- Values of LanguageType (schemas.py, lines 37-41). -/
def languageTypeValues : List String := ["English", "Hindi", "Hinglish"]

/-- The ClassificationResponse pydantic model (schemas.py, lines 64-92).
The wall-clock fields processing_time_ms and timestamp are not modelled. -/
structure ClassificationResponse where
  classification : String
  sub_classification : Option String
  subject : Option String
  language : String
  original_message : String
  translated_message : Option String
  confidence_score : ℚ
  response_data : Option PyVal

/-- Pydantic construction of a ClassificationResponse: validates each
enum-typed field against its closed value set, and the confidence bounds
ge=0, le=1, in field declaration order; the first failing field raises a
ValidationError. -/
def mkClassificationResponse (c : String) (sub : Option String)
    (subj : Option String) (lang : String) (orig : String)
    (trans : Option String) (conf : ℚ) (rd : Option PyVal) :
    Except String ClassificationResponse :=
  if !(classificationTypeValues.contains c) then
    .error "ValidationError: classification"
  else if (match sub with
           | some s => !(examSubClassificationTypeValues.contains s)
           | Option.none => false) then
    .error "ValidationError: sub_classification"
  else if (match subj with
           | some s => !(subjectTypeValues.contains s)
           | Option.none => false) then
    .error "ValidationError: subject"
  else if !(languageTypeValues.contains lang) then
    .error "ValidationError: language"
  else if !(decide (0 ≤ conf) && decide (conf ≤ 1)) then
    .error "ValidationError: confidence_score"
  else
    .ok ⟨c, sub, subj, lang, orig, trans, conf, rd⟩

/-- One conversation turn as read back from the store
(history_schemas.py, ConversationMessage, lines 9-19). -/
structure ConversationMessage where
  timestamp : ℤ
  request_message : String
  response_message : String
  classification : String
  sub_classification : Option String
  subject : Option String
  language : String
  is_follow_up : Bool
deriving DecidableEq, Repr

/-- A conversation history for one user
(history_schemas.py, ConversationHistory, lines 22-27). -/
structure ConversationHistory where
  phone_number : String
  messages : List ConversationMessage
  total_count : ℕ
deriving DecidableEq, Repr

/-- Result of the follow-up detection stage
(history_schemas.py, FollowUpDetectionResult, lines 30-38). -/
structure FollowUpDetectionResult where
  is_follow_up : Bool
  enriched_message : Option String
  original_message : String
  context_used : List String
  confidence : Option ℚ := Option.none
  should_stop_conversation : Bool := false
deriving DecidableEq, Repr

/-- The request model of the classify endpoint
(schemas.py, ClassificationRequest, lines 44-55): it declares exactly the
fields message and metadata. -/
structure ClassificationRequest where
  message : String
  metadata : Option PyVal := Option.none

/-- The attribute names declared by ClassificationRequest. -/
def classificationRequestFields : List String := ["message", "metadata"]

/-- Python attribute access on a parsed ClassificationRequest: reading an
attribute that the pydantic model does not declare raises AttributeError
(extra JSON keys are ignored at parse time and never become attributes). -/
def requestAttr (req : ClassificationRequest) (attr : String) :
    Except String PyVal :=
  if attr = "message" then .ok (.str req.message)
  else if attr = "metadata" then .ok ((req.metadata).getD .none)
  else .error ("AttributeError: " ++ attr)

/-! ## Conversation store (app/services/history_service.py)

DynamoDB is modelled as a list of items plus an availability mode: a
missing table models a failed client initialization (self.table is None),
an error models the query call raising, and a list of items models the
table contents. A DynamoDB query over the (phone_number, timestamp) key
returns the items of the partition matching the key condition, ordered by
the sort key; ScanIndexForward=False yields descending timestamp order
and Limit truncates after ordering. -/

/-- One persisted conversation item, the record layout written by
save_conversation (history_service.py, lines 82-92). The is_follow_up
attribute may be absent from a raw item (read back with a default). -/
structure StoreItem where
  phone_number : String
  timestamp : ℤ
  request_message : String
  response_message : String
  classification : String
  sub_classification : Option String
  subject : Option String
  language : String
  is_follow_up : Option Bool
  ttl : ℤ
deriving DecidableEq, Repr

/-- Insert an item into a list sorted by descending timestamp. -/
def insertByTs (x : StoreItem) : List StoreItem → List StoreItem
  | [] => [x]
  | y :: ys =>
    if y.timestamp ≤ x.timestamp then x :: y :: ys else y :: insertByTs x ys

/-- Sort items by descending timestamp (DynamoDB sort-key order with
ScanIndexForward=False). -/
def sortDescByTs (l : List StoreItem) : List StoreItem :=
  l.foldr insertByTs []

/-- Default configuration values (app/core/config.py, lines 48-50). -/
def history_retention_days : ℕ := 90

/-- Default bound on the number of history messages read back. -/
def history_messages_limit : ℕ := 5

/-- Default sliding-window width in hours. -/
def history_window_hours : ℕ := 24

/-- The sliding-window cutoff (history_service.py, _get_cutoff_timestamp,
lines 53-62): current time in ms minus the window in hours. -/
def get_cutoff_timestamp (now_ms : ℤ) (window_hours : ℕ) : ℤ :=
  now_ms - (window_hours : ℤ) * 60 * 60 * 1000

/-- Model of HistoryService.get_conversation_history (history_service.py,
lines 110-175). The table argument carries the availability mode. Note
that the Python expression `limit or self.messages_limit` falls back to
the configured limit also when the caller passes 0, because 0 is falsy.
The query filters only on the partition key and on timestamp strictly
above the cutoff; no condition involves the ttl attribute. Any error from
the query is caught and an empty history is returned. -/
def get_conversation_history (table : Option (Except String (List StoreItem)))
    (phone : String) (lim : Option ℕ) (now_ms : ℤ)
    (window_hours messages_limit : ℕ) : ConversationHistory :=
  match table with
  | Option.none => ⟨phone, [], 0⟩
  | some (.error _) => ⟨phone, [], 0⟩
  | some (.ok items) =>
    let cutoff := get_cutoff_timestamp now_ms window_hours
    let message_limit :=
      match lim with
      | some n => if n = 0 then messages_limit else n
      | Option.none => messages_limit
    let selected :=
      (sortDescByTs (items.filter
        (fun it => it.phone_number == phone && decide (cutoff < it.timestamp)))).take
        message_limit
    let messages := selected.map (fun it =>
      ConversationMessage.mk it.timestamp it.request_message
        it.response_message it.classification it.sub_classification
        it.subject it.language (it.is_follow_up.getD false))
    ⟨phone, messages, messages.length⟩

/-! ## Follow-up detector (app/services/followup_detector.py)

The GPT analysis call is modelled by an explicit outcome: the call may
raise, its text may fail JSON parsing, or it parses to the three fields
the code reads out of the JSON object (with their .get defaults already
applied). -/

/-- Outcome of the follow-up GPT call as consumed by detect_and_enrich. -/
inductive GptOutcome where
  | fail (e : String)
  | unparseable (e : String)
  | parsed (is_follow_up : Bool) (enriched_message : Option String)
      (should_stop : Bool)
deriving DecidableEq, Repr

/-- The fallback result used by every failure branch of detect_and_enrich
(followup_detector.py, lines 70-75, 201-206 and 211-216): not a follow-up,
no enrichment, and should_stop_conversation left at its default false. -/
def followupFallback (current : String) : FollowUpDetectionResult :=
  ⟨false, Option.none, current, [], Option.none, false⟩

/-- Model of FollowUpDetector.detect_and_enrich (followup_detector.py,
lines 48-216) given the history that get_conversation_history returned
and the outcome of the GPT call. Empty history short-circuits to the
fallback before any GPT call; a raising call or an unparseable response
also return the fallback. -/
def detect_and_enrich (current : String)
    (history : ConversationHistory) (gpt : GptOutcome) :
    FollowUpDetectionResult :=
  if history.messages.isEmpty then followupFallback current
  else
    match gpt with
    | .fail _ => followupFallback current
    | .unparseable _ => followupFallback current
    | .parsed fu em stop =>
      { is_follow_up := fu
        enriched_message := if fu then em else Option.none
        original_message := current
        context_used :=
          if fu then history.messages.reverse.map (·.request_message) else []
        confidence := Option.none
        should_stop_conversation := stop }

/-! ## Subject and language detector
(app/services/subject_language_detector.py) -/

/-- The raw fields of the structured-output JSON object read by detect:
result.get("subject"), result.get("language"). -/
structure DetectionRaw where
  subject : Option String
  language : Option String
deriving DecidableEq, Repr

/-- The dictionary detect returns: an optional subject and a language. -/
structure SubjectLanguage where
  subject : Option String
  language : String
deriving DecidableEq, Repr

/-- Model of SubjectLanguageDetector._normalize_subject (lines 144-164):
falsy, "null" and "none" inputs map to None, unknown subjects map to None
with a warning, known subjects map through the literal subject_map dict of
lines 149-157, written out as its key cases. -/
def normalize_subject : Option String → Option String
  | Option.none => Option.none
  | some s =>
    if s.isEmpty || pyLower s = "null" || pyLower s = "none" then Option.none
    else if pyLower s = "physics" then some "Physics"
    else if pyLower s = "chemistry" then some "Chemistry"
    else if pyLower s = "mathematics" then some "Mathematics"
    else if pyLower s = "math" then some "Mathematics"
    else if pyLower s = "maths" then some "Mathematics"
    else if pyLower s = "biology" then some "Biology"
    else if pyLower s = "bio" then some "Biology"
    else Option.none

/-- Model of SubjectLanguageDetector._normalize_language (lines 166-183):
falsy and unknown inputs default to English; known inputs map through the
literal language_map dict of lines 172-176, written out as its key cases. -/
def normalize_language : Option String → String
  | Option.none => "English"
  | some s =>
    if s.isEmpty then "English"
    else if pyLower s = "english" then "English"
    else if pyLower s = "hindi" then "Hindi"
    else if pyLower s = "hinglish" then "Hinglish"
    else "English"

/-- Model of SubjectLanguageDetector.detect (lines 23-120): a raising API
call or an unparseable response raises SubjectDetectionError; otherwise
the raw fields are normalized. -/
def SubjectLanguageDetector_detect (llm : Except String DetectionRaw) :
    Except String SubjectLanguage :=
  match llm with
  | .error e => .error ("Detection failed: " ++ e)
  | .ok raw =>
    .ok ⟨normalize_subject raw.subject, normalize_language raw.language⟩

/-! ## Main classifier (app/services/main_classifier.py)

ClassifierAgent.classify lowercases the raw LLM response and resolves it
through three fallback layers (lines 306-337): a substring scan over the
six valid category names, a substring scan over a keyword table, and a
final if/elif chain defaulting to conversation_based. The two Python
loops iterate over small literal collections and are written out here as
explicit decision chains; self.valid_categories is a Python set, whose
iteration order is unspecified, but every branch returns a member of the
same six-element set, so the property proved below is order-independent. -/

/-- The resolution chain of ClassifierAgent.classify (main_classifier.py,
lines 306-337) applied to the already stripped and lowercased response
text. -/
def classify_fallback_chain (response : String) : String :=
  if strContains response "subject_related" then "subject_related"
  else if strContains response "app_related" then "app_related"
  else if strContains response "complaint" then "complaint"
  else if strContains response "guidance_based" then "guidance_based"
  else if strContains response "conversation_based" then "conversation_based"
  else if strContains response "exam_related_info" then "exam_related_info"
  else if strContains response "subject" || strContains response "academic" ||
      strContains response "topic" || strContains response "concept" then
    "subject_related"
  else if strContains response "app" || strContains response "feature" ||
      strContains response "batch" || strContains response "platform" ||
      strContains response "navigation" ||
      strContains response "subscription" ||
      strContains response "pricing" || strContains response "payment" ||
      strContains response "discount" ||
      strContains response "scholarship" then "app_related"
  else if strContains response "complaint" || strContains response "problem" ||
      strContains response "issue" || strContains response "frustration" then
    "complaint"
  else if strContains response "guidance" || strContains response "study" ||
      strContains response "planning" || strContains response "advice" then
    "guidance_based"
  else if strContains response "conversation" || strContains response "casual" ||
      strContains response "greeting" then "conversation_based"
  else if strContains response "exam" || strContains response "examination" ||
      strContains response "pattern" || strContains response "schedule" then
    "exam_related_info"
  else if strContains response "subject" || strContains response "academic" then
    "subject_related"
  else if strContains response "app" || strContains response "feature" ||
      strContains response "subscription" || strContains response "pricing" then
    "app_related"
  else if strContains response "complaint" || strContains response "problem" then
    "complaint"
  else if strContains response "guidance" || strContains response "study" then
    "guidance_based"
  else if strContains response "exam" then "exam_related_info"
  else "conversation_based"

/-- Model of ClassifierAgent.classify (main_classifier.py, lines 306-337)
applied to the raw text of the LLM response: strip, lowercase, resolve. -/
def ClassifierAgent_classify (llmText : String) : String :=
  classify_fallback_chain (pyLower (pyStrip llmText))

/-- Model of initial_main_classifier (main_classifier.py, lines 365-394)
over the outcome of the LLM invocation: a raising call is re-raised as a
ClassificationError (the OpenAI-specific and the generic handler differ
only in the message prefix; the generic one is used here), a successful
call goes through the classify fallback chain. -/
def initial_main_classifier (llm : Except String String) :
    Except String String :=
  match llm with
  | .error e => .error ("Classification failed: " ++ e)
  | .ok text => .ok (ClassifierAgent_classify text)

/-! ## Exam sub-classifier (app/services/exam_classifier.py) -/

/-- Model of ExamClassifierAgent.classify (exam_classifier.py, lines
32-149): a raising completions call is caught and falls back to faq, a
successful one is stripped and lowercased. -/
def ExamClassifierAgent_classify (llm : Except String String) : String :=
  match llm with
  | .error _ => "faq"
  | .ok text => pyLower (pyStrip text)

/-- Model of _normalize_exam_classification (exam_classifier.py, lines
162-187): the literal normalization_map written out as its key cases;
unknown values are returned as-is, left for schema validation to catch. -/
def normalize_exam_classification (raw : String) : String :=
  if pyLower raw = "faq" then "faq"
  else if pyLower raw = "pyq_pdf" then "pyq_pdf"
  else if pyLower raw = "asking_pyq_question" then "asking_PYQ_question"
  else if pyLower raw = "asking_test" then "asking_test"
  else if pyLower raw = "asking_important_question" then
    "asking_important_question"
  else raw

/-- Model of exam_related_main_classifier (exam_classifier.py, lines
190-219): classify never raises in the model (its own failure branch
returns faq), so the normalized value is always produced. -/
def exam_related_main_classifier (llm : Except String String) :
    Except String String :=
  .ok (normalize_exam_classification (ExamClassifierAgent_classify llm))

/-! ## Response formatter (app/utils/response_formatter.py)

The formatter turns the full envelope into the simple status/message
dict returned to the caller. Python operations that can raise inside the
try blocks (attribute access on non-dicts, string indexing, len and
slicing in the logging lines) are modelled through the Except-valued
PyVal helpers; each except handler substitutes its literal fallback. -/

/-- Whether a value is a dict containing a given key. -/
def pyHasKey (v : PyVal) (k : String) : Bool :=
  match v with
  | .dict es => (PyVal.lookupKey es k).isSome
  | _ => false

/-- Model of the questions loop of format_exam_response (lines 129-140):
enumerate counts every element while non-dict elements contribute no
lines; f-string interpolation renders values through str(). -/
def formatQuestions (qs : List PyVal) : List String :=
  (qs.enum).foldr
    (fun iq acc =>
      match iq.2 with
      | .dict qes =>
        let qt := (PyVal.lookupKey qes "question").getD (.str "")
        let st := (PyVal.lookupKey qes "solution").getD (.str "")
        let line := "Q" ++ toString (iq.1 + 1) ++ ": " ++ qt.toPyStr
        if st.truthy then
          line :: ("Solution: " ++ st.toPyStr ++ "\n") :: acc
        else line :: acc
      | _ => acc)
    []

/-- Model of format_exam_response (response_formatter.py, lines 109-150);
the caller guarantees a dict argument, and under this model no operation
of the body raises, so the except branch returning the empty string is
unreachable. -/
def format_exam_response (resp : List (String × PyVal)) : PyVal :=
  let alts := (PyVal.lookupKey resp "alternatives").getD .none
  let altsOut : Option PyVal :=
    if alts.truthy then
      match alts with
      | .list items =>
        if items.isEmpty then Option.none
        else
          some (.str ("Here are some suggestions:\n\n" ++
            String.intercalate "\n"
              (items.map (fun a => "• " ++ a.toPyStr))))
      | _ => Option.none
    else Option.none
  match altsOut with
  | some out => out
  | Option.none =>
    let questions := (PyVal.lookupKey resp "questions").getD .none
    let questionsOut : Option PyVal :=
      if questions.truthy then
        match questions with
        | .list items =>
          if items.isEmpty then Option.none
          else some (.str (String.intercalate "\n\n" (formatQuestions items)))
        | _ => Option.none
      else Option.none
    match questionsOut with
    | some out => out
    | Option.none =>
      match PyVal.lookupKey resp "text" with
      | some t => t
      | Option.none => .str ""

/-- The exam_related_info extraction after the formatted_response check
(response_formatter.py, lines 57-73). -/
def exam_extract_rest (data : PyVal) : Except String PyVal := do
  let response ← data.pyGet "response" .none
  if response.isStr && response.truthy then pure response
  else if response.isDict && pyHasKey response "text" then
    response.pyIndex "text"
  else
    match response with
    | .dict es =>
      let formatted := format_exam_response es
      if formatted.truthy then pure formatted
      else pure (.str "Exam information not available")
    | _ => pure (.str "Exam information not available")

/-- Model of extract_generic_message (response_formatter.py, lines
153-178), called from inside the extraction try block. -/
def extract_generic_message (data : PyVal) : Except String PyVal := do
  let r ← data.pyGet "response" .none
  if r.isStr then data.pyIndex "response"
  else if r.isDict && pyHasKey r "text" then r.pyIndex "text"
  else do
    let hasText ← data.pyContains "text"
    if hasText then data.pyIndex "text"
    else do
      let hasMsg ← data.pyContains "message"
      if hasMsg then data.pyIndex "message"
      else do
        let rr ← data.pyGet "response" (.str "Response generated successfully")
        pure (.str rr.toPyStr)

/-- The body of the extraction try block of extract_user_message
(response_formatter.py, lines 27-102): one branch per classification
value, with the Python exceptions surfaced as errors. -/
def extract_core (data : PyVal) (classification : String) :
    Except String PyVal :=
  if classification = "guidance_based" then do
    let r ← data.pyGet "response" (.dict [])
    let t ← r.pyGet "text" (.str "")
    if t.truthy then pure t else pure (.str "No guidance available")
  else if classification = "app_related" then do
    let m ← data.pyGet "response" (.str "")
    if m.isStr && m.truthy then pure m
    else if m.isDict && pyHasKey m "text" then m.pyIndex "text"
    else pure (.str "No content available")
  else if classification = "exam_related_info" then do
    let hasFr ← data.pyContains "formatted_response"
    if hasFr then do
      let fr ← data.pyIndex "formatted_response"
      if fr.truthy then pure fr else exam_extract_rest data
    else exam_extract_rest data
  else if classification = "subject_related" then do
    let r ← data.pyGet "response" (.dict [])
    let t ← r.pyGet "text" (.str "")
    if t.truthy then pure t else pure (.str "No answer available")
  else if classification = "conversation_based" then do
    let m ← data.pyGet "response" (.str "")
    if m.isStr && m.truthy then pure m
    else pure (.str "Hello! How can I help you?")
  else if classification = "complaint" then do
    let m ← data.pyGet "text" (.str "")
    if m.truthy then pure m else pure (.str "Thank you for your feedback")
  else extract_generic_message data

/-- Model of extract_user_message (response_formatter.py, lines 10-106)
on a dict-shaped response_data; any exception inside the try block is
caught and replaced by the literal error message. -/
def extract_user_message (es : List (String × PyVal))
    (classification : String) : PyVal :=
  if es.isEmpty || (PyVal.lookupKey es "data").isNone then
    .str "Unable to generate response"
  else
    let data := (PyVal.lookupKey es "data").getD .none
    match extract_core data classification with
    | .ok v => v
    | .error _ => .str "Error generating response"

/-- The simple response dict returned to the caller: keys status and
message. -/
structure SimpleResponse where
  status : String
  message : PyVal

/-- Model of transform_to_simple_format (response_formatter.py, lines
181-230). A None or falsy response_data yields the error body; an
explicit status of error forwards the stored message; otherwise the
user message is extracted. The logging lines apply len() and slicing to
the extracted message, so a message value supporting neither is caught
by the outer except handler. -/
def transform_to_simple_format (full : ClassificationResponse) :
    SimpleResponse :=
  match full.response_data with
  | Option.none => ⟨"error", .str "No response generated"⟩
  | some v =>
    if !v.truthy then ⟨"error", .str "No response generated"⟩
    else
      match v with
      | .dict es =>
        let status := (PyVal.lookupKey es "status").getD (.str "error")
        if status.eqStr "error" then
          ⟨"error", (PyVal.lookupKey es "message").getD
            (.str "An error occurred")⟩
        else
          let message := extract_user_message es full.classification
          match message.pyLen with
          | .error _ => ⟨"error", .str "Failed to format response"⟩
          | .ok _ =>
            if message.pySliceOk then ⟨"success", message⟩
            else ⟨"error", .str "Failed to format response"⟩
      | _ => ⟨"error", .str "Failed to format response"⟩

/-! ## Pipeline orchestrator (app/services/classification_pipeline.py)

The orchestrator is parameterized by its collaborator stages, exactly
the callables ClassificationPipeline.classify invokes: the follow-up
detector (total, see detect_and_enrich), the subject/language detector,
the translator, the two classifiers and the handler registry. The
returned trace lists the stages that were actually invoked, in order. -/

/-- The stages a pipeline run can invoke. -/
inductive Stage where
  | followUp
  | detect
  | translate
  | mainClassify
  | subClassify
  | dispatch
deriving DecidableEq, Repr

/-- The collaborators of ClassificationPipeline.classify. A handler maps
the query and the classification_data dict to a response dict or raises. -/
structure Stages where
  followup : String → String → FollowUpDetectionResult
  detect : String → Except String SubjectLanguage
  translate : String → Except String String
  mainClassify : String → Except String String
  examClassify : String → Except String String
  handlers : String → Option (String → PyVal → Except String PyVal)

/-- Whether the detected language triggers translation
(classification_pipeline.py, line 123). -/
def translationNeeded (language : String) : Bool :=
  language == "Hindi" || language == "Hinglish"

/-- Step 2 of the pipeline (lines 119-132): translate when needed; on
translation failure continue with the untranslated message and leave
translated_message unset. -/
def translate_step (st : Stages) (message language : String) :
    Option String × String × List Stage :=
  if translationNeeded language then
    match st.translate message with
    | .ok t => (some t, t, [Stage.translate])
    | .error _ => (Option.none, message, [Stage.translate])
  else (Option.none, message, [])

/-- Step 4 of the pipeline (lines 139-149): sub-classify only the
exam_related_info category; a raising sub-classifier is caught and the
run continues with no sub-classification. -/
def sub_classification_step (st : Stages) (mc query : String) :
    Option String × List Stage :=
  if mc == "exam_related_info" then
    match st.examClassify query with
    | .ok s => (some s, [Stage.subClassify])
    | .error _ => (Option.none, [Stage.subClassify])
  else (Option.none, [])

/-- The classification_data dict handed to the handler (lines 158-166).
Its original_message key carries the working (possibly enriched)
message, unlike the envelope field of the same name. -/
def classification_data (mc : String) (sub subj : Option String)
    (lang workingMsg : String) (trans : Option String)
    (phone : Option String) : PyVal :=
  .dict [("classification", .str mc), ("sub_classification", optStr sub),
         ("subject", optStr subj), ("language", .str lang),
         ("original_message", .str workingMsg),
         ("translated_message", optStr trans),
         ("phone_number", optStr phone)]

/-- Step 5 of the pipeline (lines 151-185): look the handler up in the
registry dict; a missing handler only logs a warning and leaves
response_data as None; a raising handler is caught and replaced by an
error body. -/
def dispatch_step (st : Stages) (mc query : String) (cdata : PyVal) :
    Option PyVal × List Stage :=
  match st.handlers mc with
  | some h =>
    (some (match h query cdata with
      | .ok rd => rd
      | .error e =>
        .dict [("status", .str "error"),
               ("message", .str ("Handler failed: " ++ e))]), [Stage.dispatch])
  | Option.none => (Option.none, [])

/-- The metadata enrichment of response_data (lines 190-195): only a
truthy dict is touched; a metadata entry is created when absent and the
two keys are set. Item assignment on a non-dict metadata value raises. -/
def add_followup_metadata (rd : Option PyVal) (is_fu : Bool)
    (orig : String) : Except String (Option PyVal) :=
  match rd with
  | some (.dict es) =>
    if (PyVal.dict es).truthy then
      let es1 :=
        if (PyVal.lookupKey es "metadata").isNone then
          PyVal.setKey es "metadata" (.dict [])
        else es
      match (PyVal.lookupKey es1 "metadata").getD (.dict []) with
      | .dict ms =>
        let ms1 := PyVal.setKey ms "is_follow_up" (.bool is_fu)
        let ms2 := PyVal.setKey ms1 "original_message" (.str orig)
        .ok (some (.dict (PyVal.setKey es1 "metadata" (.dict ms2))))
      | _ => .error "TypeError: item assignment on non-dict metadata"
    else .ok (some (.dict es))
  | some v => .ok (some v)
  | Option.none => .ok Option.none

/-- Steps 1 to 6 of the pipeline (lines 112-220), entered with the
working message after the follow-up stage: detection (fatal on failure),
conditional translation, main classification (fatal on failure),
conditional sub-classification, dispatch, metadata enrichment and
envelope construction. -/
def classifyFrom (st : Stages) (message orig : String) (is_fu : Bool)
    (phone : Option String) :
    Except String ClassificationResponse × List Stage :=
  match st.detect message with
  | .error e => (.error e, [Stage.detect])
  | .ok d =>
    let tres := translate_step st message d.language
    let translated := tres.1
    let query := tres.2.1
    let ttr := tres.2.2
    match st.mainClassify query with
    | .error e => (.error e, Stage.detect :: ttr ++ [Stage.mainClassify])
    | .ok mc =>
      let sres := sub_classification_step st mc query
      let sub := sres.1
      let cdata :=
        classification_data mc sub d.subject d.language message translated
          phone
      let dres := dispatch_step st mc query cdata
      let trace :=
        Stage.detect :: ttr ++ [Stage.mainClassify] ++ sres.2 ++ dres.2
      match add_followup_metadata dres.1 is_fu orig with
      | .error e => (.error e, trace)
      | .ok rd =>
        (mkClassificationResponse mc sub d.subject d.language orig
          translated (mkRat 17 20) rd, trace)

/-- The hard-coded response_data of the early conversation-stop return
(classification_pipeline.py, lines 86-95). -/
def stop_response_data (orig : String) : PyVal :=
  .dict [("status", .str "success"), ("message", .str ""), ("data", .none),
         ("metadata", .dict
           [("is_follow_up", .bool false),
            ("original_message", .str orig),
            ("stop_conversation", .bool true)])]

/-- Model of ClassificationPipeline.classify (classification_pipeline.py,
lines 48-224). The follow-up stage runs only when a phone number is
present; on should_stop_conversation the early-return envelope is built
with classification conversation_based, sub_classification
stop_conversation, language hindi and confidence 1.0 (lines 78-97);
otherwise the working message is replaced by a truthy enriched message
of a detected follow-up. Any exception escaping the body is re-raised as
ClassificationError with the prefix of line 224. -/
def pipeline_classify (st : Stages) (message : String)
    (phone : Option String) :
    Except String ClassificationResponse × List Stage :=
  let core :=
    match phone with
    | Option.none => classifyFrom st message message false Option.none
    | some p =>
      let fu := st.followup message p
      if fu.should_stop_conversation then
        (mkClassificationResponse "conversation_based"
          (some "stop_conversation") Option.none "hindi" message Option.none
          (1 : ℚ) (some (stop_response_data message)), [Stage.followUp])
      else
        let enr := fu.is_follow_up &&
          (match fu.enriched_message with
           | some em => !em.isEmpty
           | Option.none => false)
        let w := if enr then fu.enriched_message.getD message else message
        let res := classifyFrom st w message enr (some p)
        (res.1, Stage.followUp :: res.2)
  (Except.mapError (fun e => "Pipeline execution failed: " ++ e) core.1,
    core.2)

/-! ## Classify route (app/api/routes.py)

The route validates the message, runs the pipeline, schedules the
history write as a detached task (asyncio.create_task, not awaited) and
returns the transformed simple response. The write task is modelled as a
function of the eventual store outcome; its value is a log event only. -/

/-- What the detached history-write task can log: a successful save, a
save_conversation returning False, or a caught exception
(routes.py, lines 80-88). -/
inductive SaveLog where
  | saved
  | saveFailed
  | exceptionLogged (e : String)
deriving DecidableEq, Repr

/-- Model of _save_conversation_history (routes.py, lines 25-88): extract
the response message and the follow-up flag from the envelope, build the
HistorySaveRequest (whose str and bool fields pydantic validates) and
await save_conversation, logging each outcome. Every branch, the
validation failure and the raising store included, produces only a log
event; nothing escapes the enclosing try/except. The wall-clock
timestamp and ttl computations are not modelled; they produce ints and
cannot fail. -/
def save_conversation_history_task (_phone _request_message : String)
    (full : ClassificationResponse) (storeOutcome : Except String Bool) :
    SaveLog :=
  let rmCand : PyVal :=
    match full.response_data with
    | some (.dict es) =>
      if (PyVal.dict es).truthy then
        match (PyVal.lookupKey es "data").getD (.dict []) with
        | .dict ds =>
          let fr := (PyVal.lookupKey ds "formatted_response").getD (.str "")
          if !fr.truthy && (PyVal.lookupKey ds "response").isSome then
            match (PyVal.lookupKey ds "response").getD (.dict []) with
            | .dict ros => (PyVal.lookupKey ros "text").getD (.str "")
            | _ => fr
          else fr
        | _ => .str ""
      else .str ""
    | _ => .str ""
  let isfuCand : PyVal :=
    match full.response_data with
    | some (.dict es) =>
      if (PyVal.dict es).truthy then
        match (PyVal.lookupKey es "metadata").getD (.dict []) with
        | .dict ms => (PyVal.lookupKey ms "is_follow_up").getD (.bool false)
        | _ => .bool false
      else .bool false
    | _ => .bool false
  let rmFinal := if rmCand.truthy then rmCand else .str "Response generated"
  match rmFinal, isfuCand with
  | .str _, .bool _ =>
    match storeOutcome with
    | .ok true => .saved
    | .ok false => .saveFailed
    | .error e => .exceptionLogged e
  | _, _ => .exceptionLogged "ValidationError: HistorySaveRequest"

/-- Model of the classify route body (routes.py, lines 147-185) given the
message and phone number values the handler reads off the request.
The empty-message branch raises HTTPException(400) inside the try block,
but the generic `except Exception` clause of line 199 catches that very
exception and converts it to the generic 500 error. A pipeline error
surfaces as the 500 of line 189. On success the history write is
scheduled, unawaited, exactly when a phone number is present, and the
response is the transformed envelope. -/
def classify_route_body (st : Stages) (message : String)
    (phone : Option String) (storeOutcome : Except String Bool) :
    Except (ℕ × String) SimpleResponse × Option SaveLog :=
  if message.isEmpty || (pyStrip message).isEmpty then
    (.error (500, "An unexpected error occurred"), Option.none)
  else
    match (pipeline_classify st message phone).1 with
    | .error e => (.error (500, "Classification failed: " ++ e), Option.none)
    | .ok full =>
      let task := phone.map
        (fun p => save_conversation_history_task p message full storeOutcome)
      (.ok (transform_to_simple_format full), task)

/-- Model of the full classify route (routes.py, lines 128-204): the
handler first reaches the logging line 149, which reads
request.phone_number off the parsed ClassificationRequest. -/
def classify_endpoint (st : Stages) (req : ClassificationRequest)
    (storeOutcome : Except String Bool) :
    Except (ℕ × String) SimpleResponse × Option SaveLog :=
  match requestAttr req "phone_number" with
  | .error _ => (.error (500, "An unexpected error occurred"), Option.none)
  | .ok pv =>
    let phone := match pv with | .str s => some s | _ => Option.none
    classify_route_body st req.message phone storeOutcome

/-! ## The concrete handler registry and example collaborators

pipeline_handlers is the registry dict built in
ClassificationPipeline.__init__ (classification_pipeline.py, lines
39-46), parameterized by the six handler callables; the handlers
themselves are external collaborators. The demo values below instantiate
the collaborator parameters for concrete evaluations. -/

/-- The handler registry mapping of ClassificationPipeline.__init__. -/
def pipeline_handlers
    (guidance conversation exam app subject complaint :
      String → PyVal → Except String PyVal) :
    String → Option (String → PyVal → Except String PyVal) :=
  fun cat =>
    if cat == "guidance_based" then some guidance
    else if cat == "conversation_based" then some conversation
    else if cat == "exam_related_info" then some exam
    else if cat == "app_related" then some app
    else if cat == "subject_related" then some subject
    else if cat == "complaint" then some complaint
    else Option.none

/-- A handler that returns a well-formed success body. -/
def demoHandlerOk : String → PyVal → Except String PyVal :=
  fun _ _ => .ok (.dict [("status", .str "success"),
    ("data", .dict [("response", .dict [("text", .str "hello there")])])])

/-- A handler that raises. -/
def demoHandlerRaise : String → PyVal → Except String PyVal :=
  fun _ _ => .error "boom"

/-- A follow-up stage that detects nothing. -/
def demoFollowupNone : String → String → FollowUpDetectionResult :=
  fun m _ => ⟨false, Option.none, m, [], Option.none, false⟩

/-- A follow-up stage that requests a conversation stop. -/
def demoFollowupStop : String → String → FollowUpDetectionResult :=
  fun m _ => ⟨false, Option.none, m, [], Option.none, true⟩

/-- A baseline set of collaborators: English detection, working
translator, guidance classification, full registry of ok handlers. -/
def demoStages : Stages :=
  { followup := demoFollowupNone
    detect := fun _ => .ok ⟨some "Physics", "English"⟩
    translate := fun m => .ok m
    mainClassify := fun _ => .ok "guidance_based"
    examClassify := fun _ => .ok "faq"
    handlers := pipeline_handlers demoHandlerOk demoHandlerOk demoHandlerOk
      demoHandlerOk demoHandlerOk demoHandlerOk }

/-- The baseline collaborators with a stop-requesting follow-up stage. -/
def demoStopStages : Stages :=
  { demoStages with followup := demoFollowupStop }

/-- Collaborators detecting Hindi with a raising translator. -/
def demoHindiFailStages : Stages :=
  { demoStages with
    detect := fun _ => .ok ⟨Option.none, "Hindi"⟩
    translate := fun _ => .error "translator timeout"
    mainClassify := fun _ => .ok "complaint" }

/-- Collaborators whose subject/language detection raises. -/
def demoDetectFailStages : Stages :=
  { demoStages with detect := fun _ => .error "Detection failed: api down" }

/-- Collaborators whose main classification raises. -/
def demoClassifyFailStages : Stages :=
  { demoStages with
    mainClassify := fun _ => .error "Classification failed: api down" }

/-- Collaborators classifying into the exam category with a raising
sub-classifier. -/
def demoExamFailStages : Stages :=
  { demoStages with
    mainClassify := fun _ => .ok "exam_related_info"
    examClassify := fun _ => .error "exam classifier down" }

/-- Collaborators whose complaint handler raises. -/
def demoRaiseStages : Stages :=
  { demoStages with
    mainClassify := fun _ => .ok "complaint"
    handlers := pipeline_handlers demoHandlerOk demoHandlerOk demoHandlerOk
      demoHandlerOk demoHandlerOk demoHandlerRaise }

/-- Collaborators classifying into the exam category whose
sub-classifier returns a label outside the sub-classification enum and
whose exam handler raises. -/
def demoExamBadSubStages : Stages :=
  { demoStages with
    mainClassify := fun _ => .ok "exam_related_info"
    examClassify := fun _ => .ok "weird_label"
    handlers := pipeline_handlers demoHandlerOk demoHandlerOk
      demoHandlerRaise demoHandlerOk demoHandlerOk demoHandlerOk }

/-- A stored conversation item whose time-to-live expired at the epoch
while its timestamp lies inside the sliding window at time 172800000. -/
def expiredItem : StoreItem :=
  ⟨"u1", 172700000, "q", "a", "guidance_based", Option.none, Option.none,
   "English", some false, 0⟩

/-- A stored conversation item inside the window at time 90000000. -/
def freshItem : StoreItem :=
  ⟨"u1", 4000000, "q1", "a1", "conversation_based", Option.none,
   Option.none, "English", Option.none, 9999999999⟩

/-! ## Helper lemmas -/

/-- Membership is preserved by sorted insertion. -/
theorem mem_insertByTs {a x : StoreItem} {l : List StoreItem} :
    a ∈ insertByTs x l ↔ a = x ∨ a ∈ l := by
  induction l with
  | nil => simp [insertByTs]
  | cons y ys ih =>
    by_cases h : y.timestamp ≤ x.timestamp
    · simp [insertByTs, h]
    · simp [insertByTs, h, ih]
      tauto

/-- Membership is preserved by the descending sort. -/
theorem mem_sortDescByTs {a : StoreItem} {l : List StoreItem} :
    a ∈ sortDescByTs l ↔ a ∈ l := by
  induction l with
  | nil => simp [sortDescByTs]
  | cons y ys ih =>
    simp only [sortDescByTs, List.foldr] at *
    rw [mem_insertByTs, ih]
    simp

/-- Sorted insertion preserves the descending-timestamp pairwise order. -/
theorem pairwise_insertByTs {x : StoreItem} {l : List StoreItem}
    (h : l.Pairwise (fun a b => b.timestamp ≤ a.timestamp)) :
    (insertByTs x l).Pairwise (fun a b => b.timestamp ≤ a.timestamp) := by
  induction l with
  | nil => simp [insertByTs]
  | cons y ys ih =>
    rcases List.pairwise_cons.mp h with ⟨hy, hys⟩
    by_cases hc : y.timestamp ≤ x.timestamp
    · rw [insertByTs, if_pos hc]
      refine List.pairwise_cons.mpr ⟨?_, h⟩
      intro b hb
      rcases List.mem_cons.mp hb with hb | hb
      · simpa [hb] using hc
      · exact le_trans (hy b hb) hc
    · rw [insertByTs, if_neg hc]
      refine List.pairwise_cons.mpr ⟨?_, ih hys⟩
      intro b hb
      rcases mem_insertByTs.mp hb with hb | hb
      · simp only [hb]
        exact le_of_not_le hc
      · exact hy b hb

/-- The descending sort is pairwise sorted, newest first. -/
theorem pairwise_sortDescByTs (l : List StoreItem) :
    (sortDescByTs l).Pairwise (fun a b => b.timestamp ≤ a.timestamp) := by
  induction l with
  | nil => simp [sortDescByTs]
  | cons y ys ih => exact pairwise_insertByTs ih

/-- The normalized language is always one of the three enum values. -/
theorem normalize_language_valid (s : Option String) :
    normalize_language s ∈ languageTypeValues := by
  match s with
  | Option.none => simp [normalize_language, languageTypeValues]
  | some t =>
    unfold normalize_language
    repeat' split
    all_goals simp [languageTypeValues]

/-- The normalized subject is absent or one of the four enum values. -/
theorem normalize_subject_valid (s : Option String) :
    normalize_subject s = Option.none ∨
      ∃ v, normalize_subject s = some v ∧ v ∈ subjectTypeValues := by
  match s with
  | Option.none => left; rfl
  | some t =>
    unfold normalize_subject
    repeat' split
    all_goals simp [subjectTypeValues]

/-- An ok result of the envelope constructor carries exactly the fields
it was given. -/
theorem mkClassificationResponse_ok_fields {c lang orig : String}
    {sub subj trans : Option String} {conf : ℚ} {rd : Option PyVal}
    {r : ClassificationResponse}
    (h : mkClassificationResponse c sub subj lang orig trans conf rd =
      .ok r) :
    r = ⟨c, sub, subj, lang, orig, trans, conf, rd⟩ := by
  unfold mkClassificationResponse at h
  repeat' split at h
  all_goals first
    | exact Except.noConfusion h
    | (injection h with h; exact h.symm)

/-- The envelope constructor succeeds on valid field values. -/
theorem mkClassificationResponse_ok_of_valid {c lang orig : String}
    {sub subj trans : Option String} {conf : ℚ} {rd : Option PyVal}
    (hc : classificationTypeValues.contains c = true)
    (hsub : (match sub with
             | some s => !(examSubClassificationTypeValues.contains s)
             | Option.none => false) = false)
    (hsubj : (match subj with
              | some s => !(subjectTypeValues.contains s)
              | Option.none => false) = false)
    (hlang : languageTypeValues.contains lang = true)
    (hconf : (decide (0 ≤ conf) && decide (conf ≤ 1)) = true) :
    mkClassificationResponse c sub subj lang orig trans conf rd =
      .ok ⟨c, sub, subj, lang, orig, trans, conf, rd⟩ := by
  unfold mkClassificationResponse
  rw [hc, hsub, hsubj, hlang, hconf]
  rfl

/-- Membership of an if-then-else of two members of a string list. -/
theorem ite_mem_str {c : Prop} [Decidable c] {l : List String}
    (x y : String) (hx : x ∈ l) (hy : y ∈ l) :
    (if c then x else y) ∈ l := by
  split <;> assumption

/-- Every value of the classifier fallback chain lies in the closed
category set. -/
theorem classify_fallback_chain_mem (response : String) :
    classify_fallback_chain response ∈ classificationTypeValues := by
  unfold classify_fallback_chain
  repeat (refine ite_mem_str _ _ (by decide) ?_)
  decide

/-- C10: whatever text the classification oracle returns, the fallback
chain of ClassifierAgent.classify resolves it to one of the six values
of the closed category enum, with conversation_based as final default;
hence any classification initial_main_classifier returns is a member of
the closed set. -/
theorem claim_C10_classifier_closed_set :
    (∀ llmText, ClassifierAgent_classify llmText ∈
      classificationTypeValues) ∧
    (∀ llm r, initial_main_classifier llm = .ok r →
      r ∈ classificationTypeValues) := by
  constructor
  · intro llmText
    exact classify_fallback_chain_mem (pyLower (pyStrip llmText))
  · intro llm r h
    match llm with
    | .error e => exact Except.noConfusion h
    | .ok text =>
      unfold initial_main_classifier at h
      injection h with h
      rw [← h]
      exact classify_fallback_chain_mem (pyLower (pyStrip text))

/-- C10 witness: the closed-set theorem applied to a concrete garbage
oracle response, which resolves to the conversation_based default. -/
theorem claim_C10_classifier_closed_set_witness :
    ClassifierAgent_classify "zzz" ∈ classificationTypeValues ∧
    "conversation_based" ∈ classificationTypeValues :=
  ⟨claim_C10_classifier_closed_set.1 "zzz",
   claim_C10_classifier_closed_set.2 (.ok "zzz") "conversation_based"
     (by rfl)⟩

/-- C2 counterexample: the read path never looks at the ttl attribute. At
time 172800000 with the default 24-hour window, the stored item whose ttl
expired at the epoch is still inside the timestamp window and is returned
by get_conversation_history, refuting the defensive-filter part of the
claim. -/
theorem claim_C2_counterexample :
    (get_conversation_history (some (.ok [expiredItem])) "u1" Option.none
        172800000 24 5).messages =
      [⟨172700000, "q", "a", "guidance_based", Option.none, Option.none,
        "English", false⟩] ∧
    expiredItem.ttl * 1000 < 172800000 ∧
    get_cutoff_timestamp 172800000 24 < expiredItem.timestamp ∧
    expiredItem.timestamp ≤ 172800000 :=
  ⟨rfl, by decide, by decide, by decide⟩

/-- C2 amended: get_conversation_history returns records newest first, at
most the effective limit, all with timestamps inside the sliding window
(the upper bound holding under the writer invariant that stored
timestamps are not in the future); a missing table, a raising query or
an empty partition all yield an empty history rather than an error. No
expiry filter is applied on read: exclusion of expired records is not
guaranteed (see the counterexample). -/
theorem claim_C2_recent_window_amended
    (items : List StoreItem) (phone : String) (lim : Option ℕ)
    (now_ms : ℤ) (window_hours messages_limit : ℕ)
    (hts : ∀ it ∈ items, it.timestamp ≤ now_ms) :
    ((get_conversation_history (some (.ok items)) phone lim now_ms
        window_hours messages_limit).messages.Pairwise
        (fun a b => b.timestamp ≤ a.timestamp)) ∧
    ((get_conversation_history (some (.ok items)) phone lim now_ms
        window_hours messages_limit).messages.length ≤
      (match lim with
       | some n => if n = 0 then messages_limit else n
       | Option.none => messages_limit)) ∧
    (∀ m ∈ (get_conversation_history (some (.ok items)) phone lim now_ms
        window_hours messages_limit).messages,
      get_cutoff_timestamp now_ms window_hours < m.timestamp ∧
        m.timestamp ≤ now_ms) ∧
    (∀ e, (get_conversation_history (some (.error e)) phone lim now_ms
        window_hours messages_limit).messages = []) ∧
    ((get_conversation_history Option.none phone lim now_ms
        window_hours messages_limit).messages = []) ∧
    (items.filter (fun it => it.phone_number == phone &&
        decide (get_cutoff_timestamp now_ms window_hours < it.timestamp))
        = [] →
      (get_conversation_history (some (.ok items)) phone lim now_ms
        window_hours messages_limit).messages = []) := by
  refine ⟨?_, ?_, ?_, fun e => rfl, rfl, ?_⟩
  · unfold get_conversation_history
    rw [List.pairwise_map]
    exact List.Pairwise.sublist (List.take_sublist _ _)
      (pairwise_sortDescByTs _)
  · unfold get_conversation_history
    rw [List.length_map]
    exact List.length_take_le _ _
  · intro m hm
    unfold get_conversation_history at hm
    rcases List.mem_map.mp hm with ⟨it, hit, hconv⟩
    have hit2 : it ∈ sortDescByTs (items.filter (fun it =>
        it.phone_number == phone &&
        decide (get_cutoff_timestamp now_ms window_hours <
          it.timestamp))) :=
      List.mem_of_mem_take hit
    have hit3 := mem_sortDescByTs.mp hit2
    rcases List.mem_filter.mp hit3 with ⟨hmem, hpred⟩
    have hts' := hts it hmem
    have hcut : get_cutoff_timestamp now_ms window_hours < it.timestamp := by
      have := (Bool.and_eq_true _ _).mp hpred
      exact of_decide_eq_true this.2
    have htm : m.timestamp = it.timestamp := by rw [← hconv]
    exact ⟨by rw [htm]; exact hcut, by rw [htm]; exact hts'⟩
  · intro hfil
    unfold get_conversation_history
    dsimp only
    rw [hfil]
    simp [sortDescByTs]

/-- C2 witness: the amended theorem applied to a one-item store inside
the window at time 90000000. -/
theorem claim_C2_recent_window_amended_witness :
    (get_conversation_history (some (.ok [freshItem])) "u1" Option.none
        90000000 24 5).messages.Pairwise
      (fun a b => b.timestamp ≤ a.timestamp) :=
  (claim_C2_recent_window_amended [freshItem] "u1" Option.none 90000000
    24 5 (by decide)).1

/-- C7: every failure at the history/follow-up stage is absorbed: a
raising store query or an uninitialized store yields the empty history
and hence the fallback result; a raising GPT call or an unparseable GPT
response yields the fallback result; the fallback is not-a-follow-up
with no enrichment and no stop; and a run whose follow-up stage returns
the fallback continues the pipeline on the raw message. -/
theorem claim_C7_followup_failures_absorbed :
    ∀ (cur phone : String) (gpt : GptOutcome) (lim : Option ℕ)
      (now_ms : ℤ) (window_hours messages_limit : ℕ),
    (∀ e, detect_and_enrich cur
        (get_conversation_history (some (.error e)) phone lim now_ms
          window_hours messages_limit) gpt = followupFallback cur) ∧
    (detect_and_enrich cur
        (get_conversation_history Option.none phone lim now_ms
          window_hours messages_limit) gpt = followupFallback cur) ∧
    (∀ hist e, gpt = GptOutcome.fail e →
      detect_and_enrich cur hist gpt = followupFallback cur) ∧
    (∀ hist e, gpt = GptOutcome.unparseable e →
      detect_and_enrich cur hist gpt = followupFallback cur) ∧
    ((followupFallback cur).is_follow_up = false ∧
     (followupFallback cur).enriched_message = Option.none ∧
     (followupFallback cur).should_stop_conversation = false) ∧
    (∀ (st : Stages) (p : String),
      st.followup cur p = followupFallback cur →
      pipeline_classify st cur (some p) =
        (Except.mapError (fun e => "Pipeline execution failed: " ++ e)
          (classifyFrom st cur cur false (some p)).1,
         Stage.followUp :: (classifyFrom st cur cur false (some p)).2)) := by
  intro cur phone gpt lim now_ms window_hours messages_limit
  refine ⟨fun e => rfl, rfl, ?_, ?_, ⟨rfl, rfl, rfl⟩, ?_⟩
  · intro hist e h
    subst h
    unfold detect_and_enrich
    split <;> rfl
  · intro hist e h
    subst h
    unfold detect_and_enrich
    split <;> rfl
  · intro st p h
    unfold pipeline_classify
    dsimp only
    rw [h]
    rfl

/-- C7 witness: the absorption theorem applied to a raising GPT call
over a non-empty concrete history, and to the baseline collaborators
whose follow-up stage returns the fallback. -/
theorem claim_C7_followup_failures_absorbed_witness :
    detect_and_enrich "hi"
      ⟨"u1", [⟨1, "q", "a", "conversation_based", Option.none, Option.none,
        "English", false⟩], 1⟩ (GptOutcome.fail "boom") =
      followupFallback "hi" :=
  ((claim_C7_followup_failures_absorbed "hi" "u1" (GptOutcome.fail "boom")
    Option.none 0 24 5).2.2.1)
    ⟨"u1", [⟨1, "q", "a", "conversation_based", Option.none, Option.none,
      "English", false⟩], 1⟩ "boom" rfl

/-- C1: the early conversation-stop return never produces its envelope.
The hard-coded field values of lines 78-97 (sub_classification
stop_conversation, language hindi) are not members of the
ExamSubClassificationType and LanguageType enums, so pydantic rejects the
ClassificationResponse construction; the resulting ValidationError is
caught by the outer handler and re-raised as ClassificationError. The
follow-up stage is the only stage invoked, but the caller receives an
error rather than the canonical stop envelope. -/
theorem claim_C1_stop_path_raises :
    ∀ (st : Stages) (m p : String),
      (st.followup m p).should_stop_conversation = true →
      pipeline_classify st m (some p) =
        (.error
          "Pipeline execution failed: ValidationError: sub_classification",
         [Stage.followUp]) := by
  intro st m p h
  unfold pipeline_classify
  dsimp only
  rw [h]
  rfl

/-- C1 witness: the stop path at a concrete stop-detecting follow-up
stage raises instead of returning the stop envelope. -/
theorem claim_C1_stop_path_raises_witness :
    pipeline_classify demoStopStages "thanks, bye" (some "u1") =
      (.error
        "Pipeline execution failed: ValidationError: sub_classification",
       [Stage.followUp]) :=
  claim_C1_stop_path_raises demoStopStages "thanks, bye" "u1" (by rfl)

/-- C8: hard failures abort the pipeline. A raising subject/language
detection makes the continuation error immediately with only the
detection stage invoked; a raising primary classification after a
successful detection also makes the run error; through
pipeline_classify the error surfaces to the caller as the single wrapped
ClassificationError, with no envelope. -/
theorem claim_C8_fatal_failures_propagate :
    ∀ (st : Stages) (w orig : String) (fu : Bool) (phone : Option String),
    (∀ e, st.detect w = .error e →
      classifyFrom st w orig fu phone = (.error e, [Stage.detect])) ∧
    (∀ d e, st.detect w = .ok d →
      st.mainClassify (translate_step st w d.language).2.1 = .error e →
      (classifyFrom st w orig fu phone).1 = .error e) ∧
    (∀ e, st.detect w = .error e →
      pipeline_classify st w Option.none =
        (.error ("Pipeline execution failed: " ++ e), [Stage.detect])) := by
  intro st w orig fu phone
  refine ⟨?_, ?_, ?_⟩
  · intro e h
    unfold classifyFrom
    rw [h]
  · intro d e h1 h2
    unfold classifyFrom
    rw [h1]
    dsimp only
    rw [h2]
  · intro e h
    unfold pipeline_classify classifyFrom
    dsimp only
    rw [h]
    rfl

/-- C8 witness: the propagation theorem applied to collaborators whose
detection raises. -/
theorem claim_C8_fatal_failures_propagate_witness :
    pipeline_classify demoDetectFailStages "hi" Option.none =
      (.error "Pipeline execution failed: Detection failed: api down",
       [Stage.detect]) :=
  (claim_C8_fatal_failures_propagate demoDetectFailStages "hi" "hi" false
    Option.none).2.2 "Detection failed: api down" (by rfl)

/-- C6: when the detected language requires translation and the
translation call raises, the run is not aborted: the trace continues
into main classification, a failure of the run can then only be the
classification of the pre-translation working message itself, and any
envelope produced carries no translated message and the category
computed on the pre-translation working message. -/
theorem claim_C6_translation_failure_degrades :
    ∀ (st : Stages) (w orig : String) (fu : Bool) (phone : Option String)
      (d : SubjectLanguage) (e : String),
      st.detect w = .ok d →
      translationNeeded d.language = true →
      st.translate w = .error e →
      ((∃ rest, (classifyFrom st w orig fu phone).2 =
          Stage.detect :: Stage.translate :: Stage.mainClassify :: rest) ∧
       (∀ ec, st.mainClassify w = .error ec →
          (classifyFrom st w orig fu phone).1 = .error ec) ∧
       (∀ r, (classifyFrom st w orig fu phone).1 = .ok r →
          r.translated_message = Option.none ∧
          (∀ mc, st.mainClassify w = .ok mc → r.classification = mc))) := by
  intro st w orig fu phone d e h1 h2 h3
  have htr : translate_step st w d.language =
      (Option.none, w, [Stage.translate]) := by
    unfold translate_step
    rw [h2]
    rw [h3]
    rfl
  refine ⟨?_, ?_, ?_⟩
  · unfold classifyFrom
    rw [h1]
    dsimp only
    rw [htr]
    cases hmc : st.mainClassify w with
    | error ec => exact ⟨[], rfl⟩
    | ok mc =>
      dsimp only
      cases hmeta : add_followup_metadata
          (dispatch_step st mc w (classification_data mc
            (sub_classification_step st mc w).1 d.subject d.language w
            Option.none phone)).1 fu orig with
      | error em =>
        exact ⟨(sub_classification_step st mc w).2 ++
          (dispatch_step st mc w (classification_data mc
            (sub_classification_step st mc w).1 d.subject d.language w
            Option.none phone)).2, rfl⟩
      | ok rd =>
        exact ⟨(sub_classification_step st mc w).2 ++
          (dispatch_step st mc w (classification_data mc
            (sub_classification_step st mc w).1 d.subject d.language w
            Option.none phone)).2, rfl⟩
  · intro ec hmc
    unfold classifyFrom
    rw [h1]
    dsimp only
    rw [htr, hmc]
  · intro r hr
    unfold classifyFrom at hr
    rw [h1] at hr
    dsimp only at hr
    rw [htr] at hr
    dsimp only at hr
    cases hmc : st.mainClassify w with
    | error ec => rw [hmc] at hr; exact Except.noConfusion hr
    | ok mc =>
      rw [hmc] at hr
      dsimp only at hr
      cases hmeta : add_followup_metadata
          (dispatch_step st mc w (classification_data mc
            (sub_classification_step st mc w).1 d.subject d.language w
            Option.none phone)).1 fu orig with
      | error em => rw [hmeta] at hr; exact Except.noConfusion hr
      | ok rd =>
        rw [hmeta] at hr
        dsimp only at hr
        have hfields := mkClassificationResponse_ok_fields hr
        subst hfields
        refine ⟨rfl, ?_⟩
        intro mc2 hmc2
        exact Except.ok.inj hmc2

/-- C6 witness: the degradation theorem applied to collaborators that
detect Hindi and whose translator raises, at the concrete envelope the
run produces; it carries no translated message. -/
theorem claim_C6_translation_failure_degrades_witness :
    (ClassificationResponse.mk "complaint" Option.none Option.none
      "Hindi" "kya hai" Option.none (mkRat 17 20)
      (some (.dict [("status", .str "success"),
        ("data", .dict [("response",
          .dict [("text", .str "hello there")])]),
        ("metadata", .dict [("is_follow_up", .bool false),
          ("original_message", .str "kya hai")])]))).translated_message =
      Option.none :=
  ((claim_C6_translation_failure_degrades demoHindiFailStages "kya hai"
    "kya hai" false Option.none ⟨Option.none, "Hindi"⟩
    "translator timeout" (by rfl) (by rfl) (by rfl)).2.2
    (ClassificationResponse.mk "complaint" Option.none Option.none
      "Hindi" "kya hai" Option.none (mkRat 17 20)
      (some (.dict [("status", .str "success"),
        ("data", .dict [("response",
          .dict [("text", .str "hello there")])]),
        ("metadata", .dict [("is_follow_up", .bool false),
          ("original_message", .str "kya hai")])])))
    (by rfl)).1

/-- The translation step contributes either no stage or exactly the
translate stage to the trace. -/
theorem translate_step_trace (st : Stages) (m lang : String) :
    (translate_step st m lang).2.2 = [] ∨
      (translate_step st m lang).2.2 = [Stage.translate] := by
  unfold translate_step
  split
  · cases st.translate m <;> simp
  · simp

/-- The dispatch step contributes either no stage or exactly the
dispatch stage to the trace. -/
theorem dispatch_step_trace (st : Stages) (mc q : String) (cd : PyVal) :
    (dispatch_step st mc q cd).2 = [] ∨
      (dispatch_step st mc q cd).2 = [Stage.dispatch] := by
  unfold dispatch_step
  cases st.handlers mc <;> simp

/-- With a registered handler the dispatch step is invoked. -/
theorem dispatch_step_trace_some (st : Stages) (mc q : String)
    (cd : PyVal) (h : String → PyVal → Except String PyVal)
    (hh : st.handlers mc = some h) :
    (dispatch_step st mc q cd).2 = [Stage.dispatch] := by
  unfold dispatch_step
  rw [hh]

/-- The sub-classification step is traced exactly for the exam
category. -/
theorem sub_classification_step_trace (st : Stages) (mc q : String) :
    (sub_classification_step st mc q).2 =
      (if mc == "exam_related_info" then [Stage.subClassify] else []) := by
  unfold sub_classification_step
  split
  · cases st.examClassify q <;> simp_all
  · simp_all

/-- Outside the exam category no sub-classification value is produced. -/
theorem sub_classification_step_not_exam (st : Stages) (mc q : String)
    (h : (mc == "exam_related_info") = false) :
    (sub_classification_step st mc q).1 = Option.none := by
  unfold sub_classification_step
  rw [h]
  rfl

/-- A raising sub-classifier produces no sub-classification value. -/
theorem sub_classification_step_err (st : Stages) (mc q e : String)
    (h : st.examClassify q = .error e) :
    (sub_classification_step st mc q).1 = Option.none := by
  unfold sub_classification_step
  split
  · rw [h]
  · rfl

/-- The trace of a run that passed detection and main classification. -/
theorem classifyFrom_trace (st : Stages) (w orig : String) (fu : Bool)
    (phone : Option String) (d : SubjectLanguage) (mc : String)
    (h1 : st.detect w = .ok d)
    (h2 : st.mainClassify (translate_step st w d.language).2.1 = .ok mc) :
    (classifyFrom st w orig fu phone).2 =
      Stage.detect :: (translate_step st w d.language).2.2 ++
        [Stage.mainClassify] ++
        (sub_classification_step st mc
          (translate_step st w d.language).2.1).2 ++
        (dispatch_step st mc (translate_step st w d.language).2.1
          (classification_data mc
            (sub_classification_step st mc
              (translate_step st w d.language).2.1).1
            d.subject d.language w (translate_step st w d.language).1
            phone)).2 := by
  unfold classifyFrom
  rw [h1]
  dsimp only
  rw [h2]
  dsimp only
  cases add_followup_metadata
      (dispatch_step st mc (translate_step st w d.language).2.1
        (classification_data mc
          (sub_classification_step st mc
            (translate_step st w d.language).2.1).1
          d.subject d.language w (translate_step st w d.language).1
          phone)).1 fu orig <;> rfl

/-- The fields of an ok envelope of a run that passed detection and main
classification. -/
theorem classifyFrom_ok_fields (st : Stages) (w orig : String) (fu : Bool)
    (phone : Option String) (d : SubjectLanguage) (mc : String)
    (r : ClassificationResponse)
    (h1 : st.detect w = .ok d)
    (h2 : st.mainClassify (translate_step st w d.language).2.1 = .ok mc)
    (hr : (classifyFrom st w orig fu phone).1 = .ok r) :
    r.classification = mc ∧
    r.sub_classification =
      (sub_classification_step st mc
        (translate_step st w d.language).2.1).1 ∧
    r.subject = d.subject ∧
    r.language = d.language ∧
    r.original_message = orig ∧
    r.translated_message = (translate_step st w d.language).1 := by
  unfold classifyFrom at hr
  rw [h1] at hr
  dsimp only at hr
  rw [h2] at hr
  dsimp only at hr
  cases hmeta : add_followup_metadata
      (dispatch_step st mc (translate_step st w d.language).2.1
        (classification_data mc
          (sub_classification_step st mc
            (translate_step st w d.language).2.1).1
          d.subject d.language w (translate_step st w d.language).1
          phone)).1 fu orig with
  | error em => rw [hmeta] at hr; exact Except.noConfusion hr
  | ok rd =>
    rw [hmeta] at hr
    dsimp only at hr
    have hfields := mkClassificationResponse_ok_fields hr
    subst hfields
    exact ⟨rfl, rfl, rfl, rfl, rfl, rfl⟩

/-- C5: the sub-classification stage is invoked if and only if the
primary classification is exam_related_info; for every other category,
and whenever the sub-classifier raises, the envelope carries no
sub-classification; and with a registered handler the run still reaches
dispatch. -/
theorem claim_C5_sub_classification_gating :
    ∀ (st : Stages) (w orig : String) (fu : Bool) (phone : Option String)
      (d : SubjectLanguage) (mc : String),
      st.detect w = .ok d →
      st.mainClassify (translate_step st w d.language).2.1 = .ok mc →
      ((Stage.subClassify ∈ (classifyFrom st w orig fu phone).2 ↔
          mc = "exam_related_info") ∧
       (mc ≠ "exam_related_info" →
          ∀ r, (classifyFrom st w orig fu phone).1 = .ok r →
            r.sub_classification = Option.none) ∧
       (∀ e, st.examClassify (translate_step st w d.language).2.1 =
            .error e →
          ∀ r, (classifyFrom st w orig fu phone).1 = .ok r →
            r.sub_classification = Option.none) ∧
       (∀ h, st.handlers mc = some h →
          Stage.dispatch ∈ (classifyFrom st w orig fu phone).2)) := by
  intro st w orig fu phone d mc h1 h2
  have htrace := classifyFrom_trace st w orig fu phone d mc h1 h2
  refine ⟨?_, ?_, ?_, ?_⟩
  · rw [htrace, sub_classification_step_trace]
    rcases translate_step_trace st w d.language with ht | ht <;> rw [ht] <;>
      rcases dispatch_step_trace st mc (translate_step st w d.language).2.1
        (classification_data mc
          (sub_classification_step st mc
            (translate_step st w d.language).2.1).1
          d.subject d.language w (translate_step st w d.language).1
          phone) with hd2 | hd2 <;> rw [hd2] <;>
      by_cases hex : mc = "exam_related_info"
    all_goals simp [hex]
  · intro hne r hr
    have := (classifyFrom_ok_fields st w orig fu phone d mc r h1 h2
      hr).2.1
    rw [this, sub_classification_step_not_exam]
    exact beq_eq_false_iff_ne.mpr hne
  · intro e he r hr
    have := (classifyFrom_ok_fields st w orig fu phone d mc r h1 h2
      hr).2.1
    rw [this]
    exact sub_classification_step_err st mc _ e he
  · intro h hh
    rw [htrace, dispatch_step_trace_some st mc _ _ h hh]
    simp

/-- C5 witness: the gating theorem applied to collaborators that
classify into the exam category with a raising sub-classifier. -/
theorem claim_C5_sub_classification_gating_witness :
    Stage.subClassify ∈
      (classifyFrom demoExamFailStages "hi" "hi" false Option.none).2 ↔
      "exam_related_info" = "exam_related_info" :=
  (claim_C5_sub_classification_gating demoExamFailStages "hi" "hi" false
    Option.none ⟨some "Physics", "English"⟩ "exam_related_info" (by rfl)
    (by rfl)).1

/-- Outside the exam category the sub-classification step is skipped
entirely. -/
theorem sub_classification_step_not_exam_eq (st : Stages) (mc q : String)
    (h : (mc == "exam_related_info") = false) :
    sub_classification_step st mc q = (Option.none, []) := by
  unfold sub_classification_step
  rw [h]
  rfl

/-- C3 counterexample: with the registry built by the pipeline (all six
categories mapped), dispatching an unregistered category produces no
body at all - response_data stays None and no stage is traced - rather
than a generic unhandled-category body with an openEscalation flag (no
such flag exists anywhere in the code); the formatter then renders the
bodiless envelope as the error message under HTTP-200 semantics. -/
theorem claim_C3_counterexample :
    (dispatch_step demoStages "unknown_category" "q" (.dict [])).1 =
      Option.none ∧
    (dispatch_step demoStages "unknown_category" "q" (.dict [])).2 = [] ∧
    transform_to_simple_format
      ⟨"conversation_based", Option.none, Option.none, "English", "m",
        Option.none, mkRat 17 20, Option.none⟩ =
      ⟨"error", .str "No response generated"⟩ :=
  ⟨rfl, rfl, rfl⟩

/-- The envelope constructor raises the sub-classification
ValidationError when the sub value lies outside its enum and the
classification itself is valid. -/
theorem mkClassificationResponse_err_sub {c lang orig : String}
    {sub subj trans : Option String} {conf : ℚ} {rd : Option PyVal}
    (hc : classificationTypeValues.contains c = true)
    (hsub : (match sub with
             | some s => !(examSubClassificationTypeValues.contains s)
             | Option.none => false) = true) :
    mkClassificationResponse c sub subj lang orig trans conf rd =
      .error "ValidationError: sub_classification" := by
  unfold mkClassificationResponse
  rw [hc, hsub]
  rfl

/-- C3 amended: dispatch never lets an exception escape the registry
boundary. A raising handler is caught and replaced by a body with
status error and the Handler-failed message; the outer run returns an
ok envelope carrying that body, and the formatter forwards the error
message under HTTP-200 semantics, whenever the sub-classification value
of the run validates (None, as for every non-exam category and for a
raising sub-classifier, or a member of the sub-classification enum).
When instead the sub-classifier of an exam_related_info run returned a
label outside the enum, the envelope construction itself raises
ValidationError, re-raised as ClassificationError, even though the
handler exception was caught. A category with no registered handler
produces no body: the envelope response_data is None (there is no
unhandled-category body and no openEscalation flag) and the formatter
yields the No-response-generated error message, also under HTTP-200
semantics, under the same sub-classification validity condition. -/
theorem claim_C3_dispatch_amended :
    ∀ (st : Stages) (w orig : String) (fu : Bool) (phone : Option String)
      (d : SubjectLanguage) (mc : String)
      (hnd : String → PyVal → Except String PyVal) (e : String),
      st.detect w = .ok d →
      st.mainClassify (translate_step st w d.language).2.1 = .ok mc →
      classificationTypeValues.contains mc = true →
      (match d.subject with
       | some s => !(subjectTypeValues.contains s)
       | Option.none => false) = false →
      languageTypeValues.contains d.language = true →
      ((st.handlers mc = some hnd →
        hnd (translate_step st w d.language).2.1
          (classification_data mc
            (sub_classification_step st mc
              (translate_step st w d.language).2.1).1
            d.subject d.language w
            (translate_step st w d.language).1 phone) = .error e →
        (((match (sub_classification_step st mc
              (translate_step st w d.language).2.1).1 with
           | some s => !(examSubClassificationTypeValues.contains s)
           | Option.none => false) = false →
          (classifyFrom st w orig fu phone).1 =
            .ok ⟨mc,
              (sub_classification_step st mc
                (translate_step st w d.language).2.1).1,
              d.subject, d.language, orig,
              (translate_step st w d.language).1, mkRat 17 20,
              some (.dict [("status", .str "error"),
                ("message", .str ("Handler failed: " ++ e)),
                ("metadata", .dict [("is_follow_up", .bool fu),
                  ("original_message", .str orig)])])⟩ ∧
          transform_to_simple_format
            ⟨mc,
              (sub_classification_step st mc
                (translate_step st w d.language).2.1).1,
              d.subject, d.language, orig,
              (translate_step st w d.language).1, mkRat 17 20,
              some (.dict [("status", .str "error"),
                ("message", .str ("Handler failed: " ++ e)),
                ("metadata", .dict [("is_follow_up", .bool fu),
                  ("original_message", .str orig)])])⟩ =
            ⟨"error", .str ("Handler failed: " ++ e)⟩) ∧
         ((match (sub_classification_step st mc
              (translate_step st w d.language).2.1).1 with
           | some s => !(examSubClassificationTypeValues.contains s)
           | Option.none => false) = true →
          (classifyFrom st w orig fu phone).1 =
            .error "ValidationError: sub_classification"))) ∧
       (st.handlers mc = Option.none →
        (match (sub_classification_step st mc
            (translate_step st w d.language).2.1).1 with
         | some s => !(examSubClassificationTypeValues.contains s)
         | Option.none => false) = false →
        (classifyFrom st w orig fu phone).1 =
          .ok ⟨mc,
            (sub_classification_step st mc
              (translate_step st w d.language).2.1).1,
            d.subject, d.language, orig,
            (translate_step st w d.language).1, mkRat 17 20,
            Option.none⟩ ∧
        transform_to_simple_format
          ⟨mc,
            (sub_classification_step st mc
              (translate_step st w d.language).2.1).1,
            d.subject, d.language, orig,
            (translate_step st w d.language).1, mkRat 17 20,
            Option.none⟩ =
          ⟨"error", .str "No response generated"⟩)) := by
  intro st w orig fu phone d mc hnd e h1 h2 hc hsubj hlang
  constructor
  · intro hh hraise
    constructor
    · intro hsubval
      constructor
      · unfold classifyFrom
        rw [h1]
        dsimp only
        rw [h2]
        dsimp only
        unfold dispatch_step
        rw [hh]
        dsimp only
        rw [hraise]
        dsimp only
        have hmeta : add_followup_metadata
            (some (.dict [("status", PyVal.str "error"),
              ("message", PyVal.str ("Handler failed: " ++ e))])) fu
            orig =
            .ok (some (.dict [("status", PyVal.str "error"),
              ("message", PyVal.str ("Handler failed: " ++ e)),
              ("metadata", PyVal.dict [("is_follow_up", PyVal.bool fu),
                ("original_message", PyVal.str orig)])])) := by rfl
        rw [hmeta]
        dsimp only
        exact mkClassificationResponse_ok_of_valid hc hsubval hsubj
          hlang (by decide)
      · rfl
    · intro hsubinv
      unfold classifyFrom
      rw [h1]
      dsimp only
      rw [h2]
      dsimp only
      unfold dispatch_step
      rw [hh]
      dsimp only
      rw [hraise]
      dsimp only
      have hmeta : add_followup_metadata
          (some (.dict [("status", PyVal.str "error"),
            ("message", PyVal.str ("Handler failed: " ++ e))])) fu
          orig =
          .ok (some (.dict [("status", PyVal.str "error"),
            ("message", PyVal.str ("Handler failed: " ++ e)),
            ("metadata", PyVal.dict [("is_follow_up", PyVal.bool fu),
              ("original_message", PyVal.str orig)])])) := by rfl
      rw [hmeta]
      dsimp only
      exact mkClassificationResponse_err_sub hc hsubinv
  · intro hh hsubval
    constructor
    · unfold classifyFrom
      rw [h1]
      dsimp only
      rw [h2]
      dsimp only
      unfold dispatch_step
      rw [hh]
      dsimp only
      have hmeta : add_followup_metadata Option.none fu orig =
          .ok Option.none := by rfl
      rw [hmeta]
      dsimp only
      exact mkClassificationResponse_ok_of_valid hc hsubval hsubj hlang
        (by decide)
    · rfl

/-- C3 witness: the amended theorem applied to collaborators whose
complaint handler raises (valid sub-classification, error body forwarded
under HTTP-200 semantics) and to exam-category collaborators whose
sub-classifier returned a label outside the enum (the run raises the
sub-classification ValidationError despite the caught handler
exception). -/
theorem claim_C3_dispatch_amended_witness :
    transform_to_simple_format
      ⟨"complaint", Option.none, some "Physics", "English", "hi",
        Option.none, mkRat 17 20,
        some (.dict [("status", .str "error"),
          ("message", .str "Handler failed: boom"),
          ("metadata", .dict [("is_follow_up", .bool false),
            ("original_message", .str "hi")])])⟩ =
      ⟨"error", .str "Handler failed: boom"⟩ ∧
    (classifyFrom demoExamBadSubStages "hi" "hi" false Option.none).1 =
      .error "ValidationError: sub_classification" :=
  ⟨(((claim_C3_dispatch_amended demoRaiseStages "hi" "hi" false
      Option.none ⟨some "Physics", "English"⟩ "complaint"
      demoHandlerRaise "boom" (by rfl) (by rfl) (by decide) (by decide)
      (by decide)).1 (by rfl) (by rfl)).1 (by rfl)).2,
   ((claim_C3_dispatch_amended demoExamBadSubStages "hi" "hi" false
      Option.none ⟨some "Physics", "English"⟩ "exam_related_info"
      demoHandlerRaise "boom" (by rfl) (by rfl) (by decide) (by decide)
      (by decide)).1 (by rfl) (by rfl)).2 (by rfl)⟩

/-- C9: the history write is fire-and-forget. The response component of
the route body does not depend on the store outcome in any way; when a
phone number is present and the pipeline produced an envelope, a write
task is scheduled for every store outcome (the task itself only logs,
see save_conversation_history_task, which is total by construction);
and with no phone number no write is scheduled. -/
theorem claim_C9_fire_and_forget :
    ∀ (st : Stages) (m p : String) (o₁ o₂ : Except String Bool),
      ((classify_route_body st m (some p) o₁).1 =
        (classify_route_body st m (some p) o₂).1) ∧
      (∀ full, (m.isEmpty || (pyStrip m).isEmpty) = false →
        (pipeline_classify st m (some p)).1 = .ok full →
        (classify_route_body st m (some p) o₁).2 =
          some (save_conversation_history_task p m full o₁)) ∧
      ((classify_route_body st m Option.none o₁).2 = Option.none) := by
  intro st m p o₁ o₂
  refine ⟨?_, ?_, ?_⟩
  · unfold classify_route_body
    split
    · rfl
    · cases hres : (pipeline_classify st m (some p)).1 <;> rfl
  · intro full hval hok
    unfold classify_route_body
    rw [hval]
    dsimp only
    rw [hok]
    rfl
  · unfold classify_route_body
    split
    · rfl
    · cases hres : (pipeline_classify st m Option.none).1 <;> rfl

/-- C9 witness: the fire-and-forget theorem applied to the baseline
collaborators at a concrete request, with a successful store outcome. -/
theorem claim_C9_fire_and_forget_witness :
    (classify_route_body demoStages "hi" (some "u1") (.ok true)).2 =
      some (save_conversation_history_task "u1" "hi"
        ⟨"guidance_based", Option.none, some "Physics", "English", "hi",
          Option.none, mkRat 17 20,
          some (.dict [("status", .str "success"),
            ("data", .dict [("response",
              .dict [("text", .str "hello there")])]),
            ("metadata", .dict [("is_follow_up", .bool false),
              ("original_message", .str "hi")])])⟩ (.ok true)) :=
  (claim_C9_fire_and_forget demoStages "hi" "u1" (.ok true)
    (.error "dynamo down")).2.1
    ⟨"guidance_based", Option.none, some "Physics", "English", "hi",
      Option.none, mkRat 17 20,
      some (.dict [("status", .str "success"),
        ("data", .dict [("response",
          .dict [("text", .str "hello there")])]),
        ("metadata", .dict [("is_follow_up", .bool false),
          ("original_message", .str "hi")])])⟩ (by rfl) (by rfl)

/-- C4: the classify route cannot consume a phone number, because the
parsed request model declares no such attribute. The handler reads
request.phone_number on its logging line before validation; on the
embedded request model that access raises AttributeError, the generic
exception handler converts it to the 500 response, and the pipeline is
never invoked - for every request, collaborator set and store outcome,
also shown at the concrete failing input. -/
theorem claim_C4_request_schema_missing_phone_number :
    (∀ (st : Stages) (req : ClassificationRequest)
       (storeOutcome : Except String Bool),
       classify_endpoint st req storeOutcome =
         (.error (500, "An unexpected error occurred"), Option.none)) ∧
    requestAttr ⟨"hello", Option.none⟩ "phone_number" =
      .error "AttributeError: phone_number" ∧
    classify_endpoint demoStages ⟨"hello", Option.none⟩ (.ok true) =
      (.error (500, "An unexpected error occurred"), Option.none) := by
  refine ⟨?_, rfl, rfl⟩
  intro st req o
  rfl
